import Mathlib

/-!
Verification of the TMDB ingestion & staging pipeline
(`apps/backend/tmdb_pipeline/` of the Capstone-PCJJL monorepo).

Shallow embedding conventions:
* Dates are day ordinals (`Nat`); `today` is a parameter where the code
  calls `date.today()`.
* SQL tables are Lean lists of row structures; a `PRIMARY KEY` uniqueness
  violation (Python `IntegrityError`) is modelled as the corresponding
  insert statement failing exactly when the key is already present.
* Python floats carrying popularity / coverage values are modelled as `ℚ`.
* Scalar payload columns never read by any verified operation
  (overview, runtime, tagline, poster paths, budget, revenue, ...) are
  omitted from the row structures; the columns that the pipeline logic
  consults (id, title, release_date, popularity) are kept.
* Fallible statements return `Option`; `none` models a raised exception.
-/

namespace TMDB

/-- A row of the `people` / `people_pending` tables
(`PersonData.to_dict` in `models.py`). -/
structure PersonRow where
  id : Nat
  name : String
  profile_path : Option String
  gender : Option Nat
  known_for_department : Option String
  deriving DecidableEq, Repr

/-- A row of the `credits` / `credits_pending` tables
(`CreditData.to_dict` in `models.py`: the person-payload fields are not
stored in the credit row). -/
structure CreditRow where
  person_id : Nat
  credit_type : String
  character_name : Option String
  credit_order : Option Nat
  department : Option String
  job : Option String
  deriving DecidableEq, Repr

/-- `CreditData` of `models.py`: a credit row together with the person
payload carried along for populating the people table. -/
structure CreditData where
  person_id : Nat
  person_name : String
  credit_type : String
  character_name : Option String
  credit_order : Option Nat
  department : Option String
  job : Option String
  profile_path : Option String
  gender : Option Nat
  known_for_department : Option String
  deriving DecidableEq, Repr

/-- `CreditData.to_dict`: the columns stored in a credit row. -/
def CreditData.toRow (c : CreditData) : CreditRow :=
  { person_id := c.person_id
    credit_type := c.credit_type
    character_name := c.character_name
    credit_order := c.credit_order
    department := c.department
    job := c.job }

/-- `CreditData.to_person_data` in `models.py`. -/
def CreditData.to_person_data (c : CreditData) : PersonRow :=
  { id := c.person_id
    name := c.person_name
    profile_path := c.profile_path
    gender := c.gender
    known_for_department := c.known_for_department }

/-- `MovieData` of `models.py` restricted to the fields the pipeline
logic reads (see the file header for the omitted payload columns). -/
structure MovieData where
  id : Nat
  title : String
  release_date : Option Nat
  popularity : Option ℚ
  adult : Bool
  genres : List String
  credits : List CreditData
  deriving DecidableEq, Repr

/-- A row of the `movies` / `movies_pending` tables
(`MovieData.to_dict`: adult, genres and credits are not movie columns). -/
structure MovieRow where
  id : Nat
  title : String
  release_date : Option Nat
  popularity : Option ℚ
  deriving DecidableEq, Repr

/-- `MovieData.to_dict` in `models.py`: the scalar columns of a movie row. -/
def MovieData.toRow (m : MovieData) : MovieRow :=
  { id := m.id
    title := m.title
    release_date := m.release_date
    popularity := m.popularity }

/-- `MovieData.get_people` in `models.py`: the person payload of each
credit, deduplicated by person id in first-occurrence order. -/
def getPeopleAux (seen : List Nat) : List CreditData → List PersonRow
  | [] => []
  | c :: rest =>
      if c.person_id ∈ seen then getPeopleAux seen rest
      else c.to_person_data :: getPeopleAux (c.person_id :: seen) rest

/-- `MovieData.get_people`. -/
def MovieData.get_people (m : MovieData) : List PersonRow :=
  getPeopleAux [] m.credits

/-- The eight tables owned by `DatabaseManager` (`database.py`):
production group (`movies`, `people`, `credits`, `genres`) and the
schema-mirrored pending group. Credit rows are keyed by `movie_id`,
genre rows are `(movie_id, genre_name)` pairs. -/
structure DBState where
  movies : List MovieRow
  people : List PersonRow
  credits : List (Nat × CreditRow)
  genres : List (Nat × String)
  movies_pending : List MovieRow
  people_pending : List PersonRow
  credits_pending : List (Nat × CreditRow)
  genres_pending : List (Nat × String)
  deriving DecidableEq, Repr

/-- `DatabaseManager.get_all_movie_ids`: the production movie id set. -/
def prodIds (st : DBState) : Finset ℕ :=
  (st.movies.map MovieRow.id).toFinset

/-- `DatabaseManager.get_pending_movie_ids`: the pending movie id set. -/
def pendingIds (st : DBState) : Finset ℕ :=
  (st.movies_pending.map MovieRow.id).toFinset

/-- The credit rows of a given movie in a credits table
(`SELECT ... FROM credits WHERE movie_id = :id`). -/
def creditsFor (table : List (Nat × CreditRow)) (mid : Nat) : List CreditRow :=
  (table.filter (fun p => p.1 == mid)).map Prod.snd

/-- The genre tags of a given movie in a genres table. -/
def genresFor (table : List (Nat × String)) (mid : Nat) : List String :=
  (table.filter (fun p => p.1 == mid)).map Prod.snd

/-- `INSERT IGNORE INTO people ...` repeated over a person list:
a person row is appended unless its id is already present
(`DatabaseManager._insert_person`). -/
def personFoldIgnore (cur : List PersonRow) (ps : List PersonRow) : List PersonRow :=
  ps.foldl (fun acc p => if p.id ∈ acc.map PersonRow.id then acc else acc ++ [p]) cur

/-- `INSERT IGNORE INTO genres (movie_id, genre_name) ...` repeated over a
genre list: the pair is appended unless already present (the genres table
has primary key `(movie_id, genre_name)`). -/
def genreFoldIgnore (mid : Nat) (cur : List (Nat × String)) (gs : List String) :
    List (Nat × String) :=
  gs.foldl (fun acc g => if (mid, g) ∈ acc then acc else acc ++ [(mid, g)]) cur

/-- `DatabaseManager.insert_movie`: insert a movie with its closure into
the production tables. The leading `INSERT INTO movies` raises
`IntegrityError` exactly when the id is already a production movie id; the
exception is caught, nothing is committed and `False` is returned.
Credits have no uniqueness constraint and are appended; people and genres
use `INSERT IGNORE`. -/
def insert_movie (st : DBState) (m : MovieData) : Bool × DBState :=
  if m.id ∈ prodIds st then (false, st)
  else
    (true,
      { st with
        movies := st.movies ++ [m.toRow]
        people := personFoldIgnore st.people m.get_people
        credits := st.credits ++ m.credits.map (fun c => (m.id, c.toRow))
        genres := genreFoldIgnore m.id st.genres m.genres })

/-- `DatabaseManager.insert_pending_movie`: identical to `insert_movie`
but targeting the pending tables. Note that (exactly as in the source)
the only failure detected is a duplicate id in `movies_pending`;
membership of the id in the production tables is never consulted. -/
def insert_pending_movie (st : DBState) (m : MovieData) : Bool × DBState :=
  if m.id ∈ pendingIds st then (false, st)
  else
    (true,
      { st with
        movies_pending := st.movies_pending ++ [m.toRow]
        people_pending := personFoldIgnore st.people_pending m.get_people
        credits_pending := st.credits_pending ++ m.credits.map (fun c => (m.id, c.toRow))
        genres_pending := genreFoldIgnore m.id st.genres_pending m.genres })

/-- The `LEFT JOIN people_pending` of `get_pending_movie`: rebuild a
`CreditData` from a credit row, resolving the person payload from the
people table (`person_name or "Unknown"` when the join finds no row). -/
def joinCredit (c : CreditRow) (people : List PersonRow) : CreditData :=
  match people.find? (fun p => p.id == c.person_id) with
  | some p =>
      { person_id := c.person_id
        person_name := p.name
        credit_type := c.credit_type
        character_name := c.character_name
        credit_order := c.credit_order
        department := c.department
        job := c.job
        profile_path := p.profile_path
        gender := p.gender
        known_for_department := p.known_for_department }
  | none =>
      { person_id := c.person_id
        person_name := "Unknown"
        credit_type := c.credit_type
        character_name := c.character_name
        credit_order := c.credit_order
        department := c.department
        job := c.job
        profile_path := none
        gender := none
        known_for_department := none }

/-- `DatabaseManager.get_pending_movie`: load the full staged closure of a
movie id, or `none` when the id has no `movies_pending` row. The `adult`
flag is not a movie column, so the reconstructed record carries the
dataclass default `false`. -/
def get_pending_movie (st : DBState) (mid : Nat) : Option MovieData :=
  match st.movies_pending.find? (fun r => r.id == mid) with
  | none => none
  | some row =>
      some
        { id := row.id
          title := row.title
          release_date := row.release_date
          popularity := row.popularity
          adult := false
          genres := genresFor st.genres_pending mid
          credits := (creditsFor st.credits_pending mid).map
            (fun c => joinCredit c st.people_pending) }

/-- `DatabaseManager.delete_pending_movie`: remove a staged closure
(credits, genres, then the movie row); shared `people_pending` rows are
deliberately kept. -/
def delete_pending_movie (st : DBState) (mid : Nat) : Bool × DBState :=
  (true,
    { st with
      credits_pending := st.credits_pending.filter (fun p => p.1 != mid)
      genres_pending := st.genres_pending.filter (fun p => p.1 != mid)
      movies_pending := st.movies_pending.filter (fun r => r.id != mid) })

/-- One statement phase of the `engine.begin()` transaction in
`approve_movie`: an externally injected failure (lost connection, ...)
at phase `k` makes the statement raise, which aborts the transaction. -/
def phase (fault : Option Nat) (k : Nat) (f : DBState → Option DBState)
    (st : DBState) : Option DBState :=
  if fault = some k then none else f st

/-- Step 1 of `approve_movie`: `INSERT INTO movies ...`, raising
(`IntegrityError`) exactly when the id is already a production movie id. -/
def txInsertMovie (row : MovieRow) (st : DBState) : Option DBState :=
  if row.id ∈ prodIds st then none
  else some { st with movies := st.movies ++ [row] }

/-- The single multi-statement transaction of
`DatabaseManager.approve_movie` (steps 1-5 of the source): insert the
movie row, its people (idempotently), its credits, its genre tags into
production, then delete the staged closure. `none` models the transaction
aborting (and hence rolling back); `fault` injects an external failure at
one of the seven statement phases. -/
def approveTxn (fault : Option Nat) (mv : MovieData) (mid : Nat)
    (st : DBState) : Option DBState := do
  let s0 ← phase fault 0 (txInsertMovie mv.toRow) st
  let s1 ← phase fault 1 (fun s =>
    some { s with people := personFoldIgnore s.people mv.get_people }) s0
  let s2 ← phase fault 2 (fun s =>
    some { s with credits := s.credits ++ mv.credits.map (fun c => (mid, c.toRow)) }) s1
  let s3 ← phase fault 3 (fun s =>
    some { s with genres := genreFoldIgnore mid s.genres mv.genres }) s2
  let s4 ← phase fault 4 (fun s =>
    some { s with credits_pending := s.credits_pending.filter (fun p => p.1 != mid) }) s3
  let s5 ← phase fault 5 (fun s =>
    some { s with genres_pending := s.genres_pending.filter (fun p => p.1 != mid) }) s4
  phase fault 6 (fun s =>
    some { s with movies_pending := s.movies_pending.filter (fun r => r.id != mid) }) s5

/-- The state a successful `approve_movie` transaction commits:
all seven statements applied in order. -/
def promoteState (mv : MovieData) (mid : Nat) (st : DBState) : DBState :=
  { movies := st.movies ++ [mv.toRow]
    people := personFoldIgnore st.people mv.get_people
    credits := st.credits ++ mv.credits.map (fun c => (mid, c.toRow))
    genres := genreFoldIgnore mid st.genres mv.genres
    people_pending := st.people_pending
    credits_pending := st.credits_pending.filter (fun p => p.1 != mid)
    genres_pending := st.genres_pending.filter (fun p => p.1 != mid)
    movies_pending := st.movies_pending.filter (fun r => r.id != mid) }

/-- `DatabaseManager.approve_movie`: move one movie from pending to
production. The staged closure is loaded first (`False` when the id is
not staged); then the whole move runs in a single transaction, any raised
statement rolling everything back (`False`, state untouched). -/
def approve_movie (st : DBState) (mid : Nat) (fault : Option Nat) :
    Bool × DBState :=
  match get_pending_movie st mid with
  | none => (false, st)
  | some mv =>
      match approveTxn fault mv mid st with
      | some st' => (true, st')
      | none => (false, st)

/-- `DatabaseManager.get_latest_movie_date`:
`MAX(release_date)` over production movies, `NULL` when none. -/
def get_latest_movie_date (st : DBState) : Option Nat :=
  (st.movies.filterMap MovieRow.release_date).max?

/-- `DatabaseManager.get_latest_pending_date`:
`MAX(release_date)` over pending movies, `NULL` when none. -/
def get_latest_pending_date (st : DBState) : Option Nat :=
  (st.movies_pending.filterMap MovieRow.release_date).max?

/-! ### Export reader (`exports.py`) -/

/-- One decoded line of the daily export file:
`{id, original_title, popularity, adult, video}`. -/
structure RawExportLine where
  id : Nat
  original_title : String
  popularity : ℚ
  video : Bool
  adult : Bool
  deriving DecidableEq, Repr

/-- `ExportMovie` of `exports.py`: the lightweight record the streaming
parser yields (the adult flag is not kept). -/
structure ExportMovie where
  id : Nat
  original_title : String
  popularity : ℚ
  video : Bool
  deriving DecidableEq, Repr

/-- `TMDBExportHandler.parse_export`: stream the export file line by
line. A line is `none` when `json.loads` fails (logged and skipped);
adult-flagged lines are always dropped — there is no configuration
parameter for this; every surviving line yields an `ExportMovie`. -/
def parse_export (lines : List (Option RawExportLine)) : List ExportMovie :=
  lines.filterMap fun l =>
    match l with
    | none => none
    | some d =>
        if d.adult then none
        else some ⟨d.id, d.original_title, d.popularity, d.video⟩

/-- `TMDBExportHandler.get_all_movie_ids`: the set of all non-adult
movie ids of an export snapshot. -/
def exportAllMovieIds (lines : List (Option RawExportLine)) : Finset ℕ :=
  ((parse_export lines).map ExportMovie.id).toFinset

/-! ### Verifier (`verification.py`) -/

/-- `VerificationResult` of `verification.py`. The source stores the
missing / extra ids as lists drawn from Python sets (iteration order
unspecified); they are modelled as the underlying finite sets. -/
structure VerificationResult where
  export_count : Nat
  database_count : Nat
  pending_count : Nat
  missing_ids : Finset ℕ
  extra_ids : Finset ℕ
  deriving DecidableEq

/-- `VerificationResult.total_in_db`. -/
def VerificationResult.total_in_db (r : VerificationResult) : Nat :=
  r.database_count + r.pending_count

/-- `VerificationResult.missing_count`. -/
def VerificationResult.missing_count (r : VerificationResult) : Nat :=
  r.missing_ids.card

/-- `VerificationResult.extra_count`. -/
def VerificationResult.extra_count (r : VerificationResult) : Nat :=
  r.extra_ids.card

/-- `VerificationResult.coverage_percent`:
`(total_in_db - extra_count) / export_count * 100`, `0` on an empty
export. -/
def VerificationResult.coverage_percent (r : VerificationResult) : ℚ :=
  if r.export_count = 0 then 0
  else ((r.total_in_db : ℚ) - (r.extra_count : ℚ)) / (r.export_count : ℚ) * 100

/-- `DatabaseVerifier.verify_against_export`: stream the non-adult
export ids into a set, fetch the production and (optionally) pending id
sets, and diff. -/
def verify_against_export (lines : List (Option RawExportLine))
    (st : DBState) (include_pending : Bool) : VerificationResult :=
  let export_ids := exportAllMovieIds lines
  let production_ids := prodIds st
  let pending_ids := if include_pending then pendingIds st else ∅
  let all_db_ids := production_ids ∪ pending_ids
  { export_count := export_ids.card
    database_count := production_ids.card
    pending_count := pending_ids.card
    missing_ids := export_ids \ all_db_ids
    extra_ids := all_db_ids \ export_ids }

/-! ### Upstream client error bookkeeping (`client.py`) -/

/-- `TMDBClient._request` on a 200 response:
`self._consecutive_errors = max(0, self._consecutive_errors - 1)`
(on `Nat` the truncated subtraction is exactly that). -/
def consecutiveOnSuccess (c : Nat) : Nat := c - 1

/-- `TMDBClient._request` on a 429 / 5xx / timeout / connection error:
`self._consecutive_errors += 1`. -/
def consecutiveOnError (c : Nat) : Nat := c + 1

/-- `TMDBClient._adaptive_delay`: the extra pre-request sleep,
`min(consecutive_errors * 0.5, 5.0)` seconds when the counter is
positive, nothing otherwise. -/
def adaptiveExtraDelay (c : Nat) : ℚ :=
  if 0 < c then min ((c : ℚ) * (1 / 2)) 5 else 0

/-- The consecutive-error counter after a run of `n` consecutive
successful (200) responses. -/
def successRun : Nat → Nat → Nat
  | 0, c => c
  | n + 1, c => successRun n (consecutiveOnSuccess c)

/-- The consecutive-error counter after a run of `n` consecutive
error responses. -/
def errorRun : Nat → Nat → Nat
  | 0, c => c
  | n + 1, c => errorRun n (consecutiveOnError c)

/-! ### Orchestrator (`pipeline.py`) -/

/-- `PipelineStats` of `models.py`: the outcome counters every strategy
returns. -/
structure PipelineStats where
  processed : Nat := 0
  inserted : Nat := 0
  updated : Nat := 0
  skipped_existing : Nat := 0
  skipped_adult : Nat := 0
  skipped_no_date : Nat := 0
  errors : Nat := 0
  deriving DecidableEq, Repr

/-- What `TMDBClient.get_movie_with_credits` reports about a fetched
movie, as consulted by the orchestrator loops. -/
structure FetchedMovie where
  adult : Bool
  hasDate : Bool
  deriving DecidableEq, Repr

/-- The per-movie loop of `TMDBPipeline._process_year` (full crawl):
count the id as processed, skip it when already in the run's dedup set,
then fetch (`none` = fetch failure), filter adult and missing-date
records, and insert — a successful insert extends the dedup set.
`fetch` is the upstream oracle and `insertOk` the insert outcome. -/
def processYearLoop (fetch : Nat → Option FetchedMovie) (insertOk : Nat → Bool) :
    List Nat → Finset ℕ → PipelineStats → PipelineStats × Finset ℕ
  | [], ex, s => (s, ex)
  | mid :: rest, ex, s =>
      let s := { s with processed := s.processed + 1 }
      if mid ∈ ex then
        processYearLoop fetch insertOk rest ex
          { s with skipped_existing := s.skipped_existing + 1 }
      else
        match fetch mid with
        | none => processYearLoop fetch insertOk rest ex { s with errors := s.errors + 1 }
        | some mv =>
            if mv.adult then
              processYearLoop fetch insertOk rest ex
                { s with skipped_adult := s.skipped_adult + 1 }
            else if mv.hasDate = false then
              processYearLoop fetch insertOk rest ex
                { s with skipped_no_date := s.skipped_no_date + 1 }
            else if insertOk mid then
              processYearLoop fetch insertOk rest (insert mid ex)
                { s with inserted := s.inserted + 1 }
            else
              processYearLoop fetch insertOk rest ex { s with errors := s.errors + 1 }

/-- The per-movie loop shared verbatim by
`TMDBPipeline.bulk_ingest_from_export`, `TMDBPipeline.backfill_missing`
and `TMDBPipeline.reingest_year_monthly`: the candidate list is already
filtered against the dedup set, so each id is fetched, filtered for
adult / missing date, and inserted. -/
def bulkIngestLoop (fetch : Nat → Option FetchedMovie) (insertOk : Nat → Bool) :
    List Nat → PipelineStats → PipelineStats
  | [], s => s
  | mid :: rest, s =>
      let s := { s with processed := s.processed + 1 }
      match fetch mid with
      | none => bulkIngestLoop fetch insertOk rest { s with errors := s.errors + 1 }
      | some mv =>
          if mv.adult then
            bulkIngestLoop fetch insertOk rest
              { s with skipped_adult := s.skipped_adult + 1 }
          else if mv.hasDate = false then
            bulkIngestLoop fetch insertOk rest
              { s with skipped_no_date := s.skipped_no_date + 1 }
          else if insertOk mid then
            bulkIngestLoop fetch insertOk rest { s with inserted := s.inserted + 1 }
          else
            bulkIngestLoop fetch insertOk rest { s with errors := s.errors + 1 }

/-- The per-movie loop of `TMDBPipeline.differential_update`
(refresh-changed): fetch then full-replace; only `updated` and `errors`
outcomes exist. -/
def differentialUpdateLoop (fetch : Nat → Option FetchedMovie)
    (updateOk : Nat → Bool) : List Nat → PipelineStats → PipelineStats
  | [], s => s
  | mid :: rest, s =>
      let s := { s with processed := s.processed + 1 }
      match fetch mid with
      | none => differentialUpdateLoop fetch updateOk rest { s with errors := s.errors + 1 }
      | some _ =>
          if updateOk mid then
            differentialUpdateLoop fetch updateOk rest { s with updated := s.updated + 1 }
          else
            differentialUpdateLoop fetch updateOk rest { s with errors := s.errors + 1 }

/-- The per-movie loop of `TMDBPipeline.add_new_movies` (incremental):
fetch, drop adult records, re-check existence in either store
(`movie_exists or pending_movie_exists`), then insert to pending. -/
def addNewLoop (fetch : Nat → Option FetchedMovie) (existsNow : Nat → Bool)
    (insertOk : Nat → Bool) : List Nat → PipelineStats → PipelineStats
  | [], s => s
  | mid :: rest, s =>
      let s := { s with processed := s.processed + 1 }
      match fetch mid with
      | none => addNewLoop fetch existsNow insertOk rest { s with errors := s.errors + 1 }
      | some mv =>
          if mv.adult then
            addNewLoop fetch existsNow insertOk rest
              { s with skipped_adult := s.skipped_adult + 1 }
          else if existsNow mid then
            addNewLoop fetch existsNow insertOk rest
              { s with skipped_existing := s.skipped_existing + 1 }
          else if insertOk mid then
            addNewLoop fetch existsNow insertOk rest { s with inserted := s.inserted + 1 }
          else
            addNewLoop fetch existsNow insertOk rest { s with errors := s.errors + 1 }

/-- The date bookkeeping at the head of `TMDBPipeline.add_new_movies`:
the latest pending release date is consulted first, and only when the
pending table has none does the production date serve as fallback. -/
def addNewLatestDate (st : DBState) : Option Nat :=
  match get_latest_pending_date st with
  | some d => some d
  | none => get_latest_movie_date st

/-- The discovery window of `TMDBPipeline.add_new_movies`:
`latest + 1 day` up to `today`; `none` when the database holds no dated
movie at all, or when the window would start after today. -/
def addNewDateRange (st : DBState) (today : Nat) : Option (Nat × Nat) :=
  match addNewLatestDate st with
  | none => none
  | some latest =>
      let start := latest + 1
      if today < start then none else some (start, today)

/-! ### Concrete fixtures used by witnesses and counterexamples -/

/-- A minimal movie record fixture. -/
def mkMovie (i : Nat) (d : Option Nat) : MovieData :=
  { id := i, title := "m", release_date := d, popularity := none
    adult := false, genres := [], credits := [] }

/-- A minimal movie row fixture. -/
def mkRow (i : Nat) (d : Option Nat) : MovieRow := (mkMovie i d).toRow

/-- The empty database. -/
def emptyDB : DBState :=
  { movies := [], people := [], credits := [], genres := []
    movies_pending := [], people_pending := [], credits_pending := []
    genres_pending := [] }

/-- A database whose production store holds exactly movie 550. -/
def prodOnly550 : DBState := { emptyDB with movies := [mkRow 550 (some 0)] }

/-- The spec's promotion-guard scenario: staged = {100, 101, 102},
production = {100}. -/
def guardScenario : DBState :=
  { emptyDB with
    movies := [mkRow 100 (some 1)]
    movies_pending := [mkRow 100 (some 1), mkRow 101 (some 2), mkRow 102 (some 3)] }

/-- The spec's verification scenario: export ids {1,2,3,4,5} with id 5
adult-flagged. -/
def scenarioExportLines : List (Option RawExportLine) :=
  [some ⟨1, "e1", 0, false, false⟩, some ⟨2, "e2", 0, false, false⟩,
   some ⟨3, "e3", 0, false, false⟩, some ⟨4, "e4", 0, false, false⟩,
   some ⟨5, "e5", 0, false, true⟩]

/-- The spec's verification scenario: production = {1,2}, staged = {3}. -/
def scenarioVerifyState : DBState :=
  { emptyDB with
    movies := [mkRow 1 (some 1), mkRow 2 (some 2)]
    movies_pending := [mkRow 3 (some 3)] }

/-- Export snapshot holding only id 1 (used against a store that also
holds an extra id). -/
def oneIdExportLines : List (Option RawExportLine) :=
  [some ⟨1, "e1", 0, false, false⟩]

/-- A store holding production ids {1, 2} and nothing staged: id 2 is
extra relative to `oneIdExportLines`. -/
def extraIdState : DBState :=
  { emptyDB with movies := [mkRow 1 (some 1), mkRow 2 (some 2)] }

/-- A store whose latest staged release date (10) is older than its
latest production release date (20). -/
def laggingPendingState : DBState :=
  { emptyDB with
    movies := [mkRow 2 (some 20)]
    movies_pending := [mkRow 1 (some 10)] }

/-- The counter-partition invariant: every processed id is accounted for
by exactly one outcome counter. -/
def statsBalanced (s : PipelineStats) : Prop :=
  s.processed = s.inserted + s.updated + s.skipped_existing
    + s.skipped_adult + s.skipped_no_date + s.errors

/-! ### C1 -/

/-- C1: mutual exclusion of the staged and production stores fails at
the store layer. From a state whose production set holds id 550 and
whose staged set is empty, `insert_pending_movie` accepts movie 550:
it returns `true` and leaves 550 a member of both stores, because the
insert only detects a duplicate inside `movies_pending` and never
consults the production tables. -/
theorem insert_pending_ignores_production_membership :
    (insert_pending_movie prodOnly550 (mkMovie 550 (some 0))).1 = true
    ∧ 550 ∈ pendingIds (insert_pending_movie prodOnly550 (mkMovie 550 (some 0))).2
    ∧ 550 ∈ prodIds (insert_pending_movie prodOnly550 (mkMovie 550 (some 0))).2 := by
  decide

/-! ### C4 -/

/-- C4: the verifier computes `missing = E \ (P ∪ S)` and
`extra = (P ∪ S) \ E` for every export snapshot and database state, and
on the spec's scenario (export {1,2,3,4,5} with 5 adult-flagged,
production {1,2}, staged {3}) it reports missing = {4}, extra = {} and
75% coverage. -/
theorem verifier_set_algebra :
    (∀ (lines : List (Option RawExportLine)) (st : DBState),
      (verify_against_export lines st true).missing_ids
          = exportAllMovieIds lines \ (prodIds st ∪ pendingIds st)
      ∧ (verify_against_export lines st true).extra_ids
          = (prodIds st ∪ pendingIds st) \ exportAllMovieIds lines)
    ∧ (verify_against_export scenarioExportLines scenarioVerifyState true).missing_ids = {4}
    ∧ (verify_against_export scenarioExportLines scenarioVerifyState true).extra_ids = ∅
    ∧ (verify_against_export scenarioExportLines scenarioVerifyState true).coverage_percent = 75 := by
  have htot : (verify_against_export scenarioExportLines scenarioVerifyState true).total_in_db = 3 := by
    decide
  have hext : (verify_against_export scenarioExportLines scenarioVerifyState true).extra_count = 0 := by
    decide
  have hexp : (verify_against_export scenarioExportLines scenarioVerifyState true).export_count = 4 := by
    decide
  refine ⟨fun lines st => ⟨rfl, rfl⟩, by decide, by decide, ?_⟩
  rw [VerificationResult.coverage_percent, htot, hext, hexp]
  norm_num

/-! ### C5, counterexample -/

/-- C5 fails as stated: with export set {1}, production {1,2} and no
staged records, coverage evaluates to exactly 100% while the extra list
is non-empty — 100% coverage is not equivalent to (missing empty AND
extra empty). -/
theorem coverage_hundred_despite_extra :
    ¬ ((verify_against_export oneIdExportLines extraIdState true).coverage_percent = 100
        ↔ (verify_against_export oneIdExportLines extraIdState true).missing_ids = ∅
          ∧ (verify_against_export oneIdExportLines extraIdState true).extra_ids = ∅) := by
  have htot : (verify_against_export oneIdExportLines extraIdState true).total_in_db = 2 := by
    decide
  have hext : (verify_against_export oneIdExportLines extraIdState true).extra_count = 1 := by
    decide
  have hexp : (verify_against_export oneIdExportLines extraIdState true).export_count = 1 := by
    decide
  have hcov : (verify_against_export oneIdExportLines extraIdState true).coverage_percent = 100 := by
    rw [VerificationResult.coverage_percent, htot, hext, hexp]
    norm_num
  intro hiff
  have hboth := hiff.mp hcov
  have : (verify_against_export oneIdExportLines extraIdState true).extra_ids ≠ ∅ := by decide
  exact this hboth.2

/-! ### C6 -/

/-- C6: inserting a record whose id is already present in the target
store returns `false` (no exception escapes) and leaves the whole
database state — both stores — unchanged. -/
theorem insert_duplicate_no_change (st : DBState) (m : MovieData) :
    (m.id ∈ prodIds st → insert_movie st m = (false, st))
    ∧ (m.id ∈ pendingIds st → insert_pending_movie st m = (false, st)) := by
  constructor
  · intro h
    simp [insert_movie, h]
  · intro h
    simp [insert_pending_movie, h]

/-- Witness for C6 at a concrete state: production holds id 550 and
the guard scenario's staged store holds id 101. -/
theorem insert_duplicate_no_change_witness :
    insert_movie prodOnly550 (mkMovie 550 (some 3)) = (false, prodOnly550)
    ∧ insert_pending_movie guardScenario (mkMovie 101 (some 3)) = (false, guardScenario) :=
  ⟨(insert_duplicate_no_change prodOnly550 (mkMovie 550 (some 3))).1 (by decide),
   (insert_duplicate_no_change guardScenario (mkMovie 101 (some 3))).2 (by decide)⟩

/-! ### C7, counterexample and amended statement -/

/-- C7 fails as stated: with latest staged date 10 and latest production
date 20, `add_new_movies` starts discovery at day 11 (staged date + 1),
not at day 21 (the later of the two dates + 1) as the claim requires. -/
theorem add_new_lower_bound_not_max :
    get_latest_pending_date laggingPendingState = some 10
    ∧ get_latest_movie_date laggingPendingState = some 20
    ∧ addNewDateRange laggingPendingState 30 = some (11, 30)
    ∧ (11 : Nat) ≠ max 10 20 + 1 := by
  decide

/-- C7 amended: the incremental strategy takes the latest *staged*
release date when the staged store has any dated record, and falls back
to the latest production date only when it has none; the discovery
window is that date + 1 day up to today. -/
theorem add_new_lower_bound_pending_first (st : DBState) (today d : Nat) :
    (get_latest_pending_date st = some d → addNewLatestDate st = some d)
    ∧ (get_latest_pending_date st = none
        → addNewLatestDate st = get_latest_movie_date st)
    ∧ (addNewLatestDate st = some d → d + 1 ≤ today
        → addNewDateRange st today = some (d + 1, today)) := by
  refine ⟨fun h => ?_, fun h => ?_, fun h hle => ?_⟩
  · simp [addNewLatestDate, h]
  · simp [addNewLatestDate, h]
  · simp [addNewDateRange, h, Nat.not_lt.mpr hle]

/-- Witness for the amended C7 on the concrete lagging store. -/
theorem add_new_lower_bound_pending_first_witness :
    addNewLatestDate laggingPendingState = some 10
    ∧ addNewDateRange laggingPendingState 30 = some (11, 30) :=
  ⟨(add_new_lower_bound_pending_first laggingPendingState 30 10).1 (by decide),
   (add_new_lower_bound_pending_first laggingPendingState 30 10).2.2 (by decide) (by decide)⟩

/-! ### C8 -/

/-- C8: every record the export stream yields originates from a line
whose adult flag is unset — an adult-flagged line is never yielded, and
`parse_export` takes no parameter that could disable the filter. -/
theorem parse_export_never_yields_adult
    (lines : List (Option RawExportLine)) (m : ExportMovie)
    (h : m ∈ parse_export lines) :
    ∃ d, some d ∈ lines ∧ d.adult = false
      ∧ m = ⟨d.id, d.original_title, d.popularity, d.video⟩ := by
  rw [parse_export, List.mem_filterMap] at h
  obtain ⟨l, hl, hf⟩ := h
  match l with
  | none => simp at hf
  | some d =>
      by_cases ha : d.adult
      · simp [ha] at hf
      · refine ⟨d, hl, by simpa using ha, ?_⟩
        simp [ha] at hf
        exact hf.symm

/-- Witness for C8 on a concrete snapshot holding a clean line, an
adult line and an unparseable line. -/
theorem parse_export_never_yields_adult_witness :
    ∃ d, some d ∈ ([some ⟨1, "a", 0, false, false⟩,
                    some ⟨2, "b", 0, false, true⟩,
                    none] : List (Option RawExportLine))
      ∧ d.adult = false
      ∧ (⟨1, "a", 0, false⟩ : ExportMovie)
          = ⟨d.id, d.original_title, d.popularity, d.video⟩ :=
  parse_export_never_yields_adult _ _ (by decide)

/-! ### C9, counterexample and amended statement -/

/-- C9 fails as stated: after a run of two error responses, a single
successful response leaves the consecutive-error counter at 1, so the
next request still sleeps an extra half second — the extra delay is not
restored to zero by one success. -/
theorem single_success_does_not_clear_delay :
    adaptiveExtraDelay (consecutiveOnSuccess (errorRun 2 0)) = 1 / 2
    ∧ (1 / 2 : ℚ) ≠ 0 := by
  have h : consecutiveOnSuccess (errorRun 2 0) = 1 := by decide
  constructor
  · rw [h, adaptiveExtraDelay, if_pos (by norm_num : (0 : ℕ) < 1)]
    rw [min_eq_left (by norm_num)]
    norm_num
  · norm_num

/-- C9 amended: the extra pre-request delay is half a second per
consecutive error, capped at five seconds; each successful response
decrements the counter by one (floored at zero), so the extra delay
returns to zero only after at least as many successes as accumulated
errors — not after a single success. -/
theorem adaptive_delay_decay (c n : Nat) :
    consecutiveOnSuccess c = c - 1
    ∧ (adaptiveExtraDelay (successRun n c) = 0 ↔ c ≤ n)
    ∧ (0 < c → adaptiveExtraDelay c = min ((c : ℚ) / 2) 5) := by
  have hrun : ∀ (n c : Nat), successRun n c = c - n := by
    intro n
    induction n with
    | zero => intro c; simp [successRun]
    | succ k ih =>
        intro c
        rw [successRun, ih, consecutiveOnSuccess]
        omega
  have hzero : ∀ k : Nat, adaptiveExtraDelay k = 0 ↔ k = 0 := by
    intro k
    unfold adaptiveExtraDelay
    rcases Nat.eq_zero_or_pos k with hk | hk
    · simp [hk]
    · rw [if_pos hk]
      constructor
      · intro hmin
        exfalso
        have hpos : (0 : ℚ) < min ((k : ℚ) * (1 / 2)) 5 :=
          lt_min (by positivity) (by norm_num)
        exact absurd hmin (ne_of_gt hpos)
      · intro hk0
        omega
  refine ⟨rfl, ?_, fun hc => ?_⟩
  · rw [hrun, hzero]
    omega
  · rw [adaptiveExtraDelay, if_pos hc]
    ring_nf

/-- Witness for the amended C9 at counter value 3. -/
theorem adaptive_delay_decay_witness :
    0 < 3 ∧ adaptiveExtraDelay 3 = min ((3 : ℚ) / 2) 5 :=
  ⟨by norm_num, (adaptive_delay_decay 3 0).2.2 (by norm_num)⟩

/-! ### C10 -/

theorem processYearLoop_balanced (fetch : Nat → Option FetchedMovie)
    (insertOk : Nat → Bool) (ids : List Nat) :
    ∀ (ex : Finset ℕ) (s : PipelineStats), statsBalanced s →
      statsBalanced (processYearLoop fetch insertOk ids ex s).1 := by
  induction ids with
  | nil =>
      intro ex s h
      simpa [processYearLoop] using h
  | cons mid rest ih =>
      intro ex s h
      by_cases hmem : mid ∈ ex
      · simp only [processYearLoop, if_pos hmem]
        exact ih _ _ (by simp [statsBalanced] at h ⊢; omega)
      · cases hf : fetch mid with
        | none =>
            simp only [processYearLoop, if_neg hmem, hf]
            exact ih _ _ (by simp [statsBalanced] at h ⊢; omega)
        | some mv =>
            simp only [processYearLoop, if_neg hmem, hf]
            split_ifs <;>
              exact ih _ _ (by simp [statsBalanced] at h ⊢; omega)

theorem bulkIngestLoop_balanced (fetch : Nat → Option FetchedMovie)
    (insertOk : Nat → Bool) (ids : List Nat) :
    ∀ (s : PipelineStats), statsBalanced s →
      statsBalanced (bulkIngestLoop fetch insertOk ids s) := by
  induction ids with
  | nil =>
      intro s h
      simpa [bulkIngestLoop] using h
  | cons mid rest ih =>
      intro s h
      cases hf : fetch mid with
      | none =>
          simp only [bulkIngestLoop, hf]
          exact ih _ (by simp [statsBalanced] at h ⊢; omega)
      | some mv =>
          simp only [bulkIngestLoop, hf]
          split_ifs <;>
            exact ih _ (by simp [statsBalanced] at h ⊢; omega)

theorem differentialUpdateLoop_balanced (fetch : Nat → Option FetchedMovie)
    (updateOk : Nat → Bool) (ids : List Nat) :
    ∀ (s : PipelineStats), statsBalanced s →
      statsBalanced (differentialUpdateLoop fetch updateOk ids s) := by
  induction ids with
  | nil =>
      intro s h
      simpa [differentialUpdateLoop] using h
  | cons mid rest ih =>
      intro s h
      cases hf : fetch mid with
      | none =>
          simp only [differentialUpdateLoop, hf]
          exact ih _ (by simp [statsBalanced] at h ⊢; omega)
      | some mv =>
          simp only [differentialUpdateLoop, hf]
          split_ifs <;>
            exact ih _ (by simp [statsBalanced] at h ⊢; omega)

theorem addNewLoop_balanced (fetch : Nat → Option FetchedMovie)
    (existsNow insertOk : Nat → Bool) (ids : List Nat) :
    ∀ (s : PipelineStats), statsBalanced s →
      statsBalanced (addNewLoop fetch existsNow insertOk ids s) := by
  induction ids with
  | nil =>
      intro s h
      simpa [addNewLoop] using h
  | cons mid rest ih =>
      intro s h
      cases hf : fetch mid with
      | none =>
          simp only [addNewLoop, hf]
          exact ih _ (by simp [statsBalanced] at h ⊢; omega)
      | some mv =>
          simp only [addNewLoop, hf]
          split_ifs <;>
            exact ih _ (by simp [statsBalanced] at h ⊢; omega)

/-- C10: for every strategy run starting from fresh counters — the full
crawl / year-reingest per-year loop, the bulk-from-export / backfill
loop, the refresh-changed loop and the incremental loop — the returned
statistics satisfy
`processed = inserted + updated + skipped_existing + skipped_adult +
skipped_no_date + errors`. -/
theorem stats_counter_partition (fetch : Nat → Option FetchedMovie)
    (insertOk updateOk existsNow : Nat → Bool) (ids : List Nat) (ex : Finset ℕ) :
    statsBalanced (processYearLoop fetch insertOk ids ex {}).1
    ∧ statsBalanced (bulkIngestLoop fetch insertOk ids {})
    ∧ statsBalanced (differentialUpdateLoop fetch updateOk ids {})
    ∧ statsBalanced (addNewLoop fetch existsNow insertOk ids {}) :=
  ⟨processYearLoop_balanced fetch insertOk ids ex {} rfl,
   bulkIngestLoop_balanced fetch insertOk ids {} rfl,
   differentialUpdateLoop_balanced fetch updateOk ids {} rfl,
   addNewLoop_balanced fetch existsNow insertOk ids {} rfl⟩

/-! ### Lemmas about the approval transaction -/

theorem joinCredit_toRow (c : CreditRow) (people : List PersonRow) :
    (joinCredit c people).toRow = c := by
  unfold joinCredit
  cases people.find? (fun p => p.id == c.person_id) <;> rfl

theorem get_pending_movie_none (st : DBState) (mid : Nat)
    (h : mid ∉ pendingIds st) : get_pending_movie st mid = none := by
  have hall : ∀ r ∈ st.movies_pending, ¬ r.id = mid := by
    intro r hr he
    exact h (by simp [pendingIds, List.mem_toFinset, List.mem_map]; exact ⟨r, hr, he⟩)
  rw [get_pending_movie]
  have : st.movies_pending.find? (fun r => r.id == mid) = none := by
    rw [List.find?_eq_none]
    intro r hr
    simpa using hall r hr
  rw [this]

theorem get_pending_movie_spec (st : DBState) (mid : Nat) (mv : MovieData)
    (h : get_pending_movie st mid = some mv) :
    mv.id = mid
    ∧ mv.credits.map CreditData.toRow = creditsFor st.credits_pending mid
    ∧ mv.genres = genresFor st.genres_pending mid := by
  rw [get_pending_movie] at h
  cases hfind : st.movies_pending.find? (fun r => r.id == mid) with
  | none => rw [hfind] at h; cases h
  | some row =>
      rw [hfind] at h
      have hrow : row.id = mid := by simpa using List.find?_some hfind
      obtain rfl : _ = mv := Option.some.inj h
      refine ⟨hrow, ?_, rfl⟩
      rw [List.map_map]
      have hcomp : (CreditData.toRow ∘ fun c => joinCredit c st.people_pending) = id := by
        funext c
        exact joinCredit_toRow c st.people_pending
      rw [hcomp, List.map_id]

theorem genreFoldIgnore_subset (mid : Nat) (gs : List String) :
    ∀ (cur : List (Nat × String)) (x : Nat × String),
      x ∈ cur → x ∈ genreFoldIgnore mid cur gs := by
  induction gs with
  | nil => intro cur x hx; simpa [genreFoldIgnore] using hx
  | cons g rest ih =>
      intro cur x hx
      rw [genreFoldIgnore, List.foldl_cons]
      by_cases hg : (mid, g) ∈ cur
      · rw [if_pos hg]
        exact ih cur x hx
      · rw [if_neg hg]
        exact ih _ x (List.mem_append_left _ hx)

theorem genreFoldIgnore_mem (mid : Nat) (gs : List String) :
    ∀ (cur : List (Nat × String)) (g : String),
      g ∈ gs → (mid, g) ∈ genreFoldIgnore mid cur gs := by
  induction gs with
  | nil => intro cur g hg; cases hg
  | cons a rest ih =>
      intro cur g hg
      rw [genreFoldIgnore, List.foldl_cons]
      rcases List.mem_cons.mp hg with rfl | htail
      · by_cases ha : (mid, g) ∈ cur
        · rw [if_pos ha]
          exact genreFoldIgnore_subset mid rest cur _ ha
        · rw [if_neg ha]
          exact genreFoldIgnore_subset mid rest _ _
            (List.mem_append_right _ (by simp))
      · by_cases ha : (mid, a) ∈ cur
        · rw [if_pos ha]
          exact ih cur g htail
        · rw [if_neg ha]
          exact ih _ g htail

theorem approveTxn_prod_mem (fault : Option Nat) (mv : MovieData) (mid : Nat)
    (st : DBState) (hm : mv.toRow.id ∈ prodIds st) :
    approveTxn fault mv mid st = none := by
  by_cases h0 : fault = some 0
  · simp [approveTxn, phase, h0]
  · simp [approveTxn, phase, h0, txInsertMovie, hm]

theorem approveTxn_some (fault : Option Nat) (mv : MovieData) (mid : Nat)
    (st st' : DBState) (h : approveTxn fault mv mid st = some st') :
    mv.toRow.id ∉ prodIds st ∧ st' = promoteState mv mid st := by
  by_cases h0 : fault = some 0
  · simp [approveTxn, phase, h0] at h
  by_cases h1 : fault = some 1
  · simp [approveTxn, phase, h0, h1, txInsertMovie] at h
  by_cases h2 : fault = some 2
  · simp [approveTxn, phase, h0, h1, h2, txInsertMovie] at h
  by_cases h3 : fault = some 3
  · simp [approveTxn, phase, h0, h1, h2, h3, txInsertMovie] at h
  by_cases h4 : fault = some 4
  · simp [approveTxn, phase, h0, h1, h2, h3, h4, txInsertMovie] at h
  by_cases h5 : fault = some 5
  · simp [approveTxn, phase, h0, h1, h2, h3, h4, h5, txInsertMovie] at h
  by_cases h6 : fault = some 6
  · simp [approveTxn, phase, h0, h1, h2, h3, h4, h5, h6, txInsertMovie] at h
  · by_cases hm : mv.toRow.id ∈ prodIds st
    · rw [approveTxn_prod_mem fault mv mid st hm] at h
      cases h
    · refine ⟨hm, ?_⟩
      simp [approveTxn, phase, h0, h1, h2, h3, h4, h5, h6, txInsertMovie, hm] at h
      rw [← h]
      rfl

/-! ### C3 -/

/-- C3: the promotion double-guard. `approve_movie` returns `false` and
leaves the whole state — both stores — untouched when the id is not in
the staged store (the existence guard) and also when the id is already a
production movie id (the duplicate guard, realised by the `INSERT INTO
movies` aborting and rolling back the transaction). -/
theorem approve_movie_guard (st : DBState) (mid : Nat) (fault : Option Nat) :
    (mid ∉ pendingIds st → approve_movie st mid fault = (false, st))
    ∧ (mid ∈ prodIds st → approve_movie st mid fault = (false, st)) := by
  constructor
  · intro h
    rw [approve_movie, get_pending_movie_none st mid h]
  · intro h
    cases hg : get_pending_movie st mid with
    | none => rw [approve_movie, hg]
    | some mv =>
        have hid : mv.id = mid := (get_pending_movie_spec st mid mv hg).1
        have hm : mv.toRow.id ∈ prodIds st := by
          show mv.id ∈ prodIds st
          rw [hid]
          exact h
        simp only [approve_movie, hg, approveTxn_prod_mem fault mv mid st hm]

/-- Witness for C3 on the spec's scenario (staged = {100, 101, 102},
production = {100}): promoting the id 100 that production already holds,
or the id 999 that is not staged, returns `false` and changes nothing. -/
theorem approve_movie_guard_witness :
    approve_movie guardScenario 999 none = (false, guardScenario)
    ∧ approve_movie guardScenario 100 none = (false, guardScenario) :=
  ⟨(approve_movie_guard guardScenario 999 none).1 (by decide),
   (approve_movie_guard guardScenario 100 none).2 (by decide)⟩

/-! ### C2 -/

/-- C2: promotion atomicity. For every state, id and fault-injection
point, `approve_movie` either fails leaving the state bit-for-bit
unchanged, or fully succeeds: it reports `true`, the id is a production
movie id and no longer a staged one, the production credit rows of the
id are exactly the previous ones extended by the whole staged credit
closure, every staged genre tag is present in production, and the staged
credit/genre closure is gone — no partial closure is ever left behind. -/
theorem approve_movie_atomicity (st : DBState) (mid : Nat) (fault : Option Nat) :
    approve_movie st mid fault = (false, st)
    ∨ ((approve_movie st mid fault).1 = true
       ∧ mid ∈ prodIds (approve_movie st mid fault).2
       ∧ mid ∉ pendingIds (approve_movie st mid fault).2
       ∧ creditsFor (approve_movie st mid fault).2.credits mid
           = creditsFor st.credits mid ++ creditsFor st.credits_pending mid
       ∧ (∀ g ∈ genresFor st.genres_pending mid,
            (mid, g) ∈ (approve_movie st mid fault).2.genres)
       ∧ creditsFor (approve_movie st mid fault).2.credits_pending mid = []
       ∧ genresFor (approve_movie st mid fault).2.genres_pending mid = []) := by
  cases hg : get_pending_movie st mid with
  | none =>
      left
      rw [approve_movie, hg]
  | some mv =>
      cases ht : approveTxn fault mv mid st with
      | none =>
          left
          simp only [approve_movie, hg, ht]
      | some st' =>
          right
          obtain ⟨hm, hst⟩ := approveTxn_some fault mv mid st st' ht
          obtain ⟨hid, hcr, hgen⟩ := get_pending_movie_spec st mid mv hg
          have hr : approve_movie st mid fault = (true, promoteState mv mid st) := by
            simp only [approve_movie, hg, ht, hst]
          rw [hr]
          refine ⟨rfl, ?_, ?_, ?_, ?_, ?_, ?_⟩
          · show mid ∈ prodIds (promoteState mv mid st)
            simp only [prodIds, promoteState, List.map_append, List.toFinset_append,
              Finset.mem_union, List.map_cons, List.map_nil]
            right
            simp [MovieData.toRow, hid]
          · show mid ∉ pendingIds (promoteState mv mid st)
            simp only [pendingIds, promoteState, List.mem_toFinset, List.mem_map]
            rintro ⟨r, hrmem, hrid⟩
            rw [List.mem_filter] at hrmem
            rw [hrid] at hrmem
            simpa using hrmem.2
          · show creditsFor (st.credits ++ mv.credits.map (fun c => (mid, c.toRow))) mid = _
            rw [creditsFor, List.filter_append, List.map_append]
            congr 1
            have hfil : (mv.credits.map (fun c => (mid, c.toRow))).filter
                (fun p => p.1 == mid) = mv.credits.map (fun c => (mid, c.toRow)) := by
              apply List.filter_eq_self.mpr
              intro p hp
              rw [List.mem_map] at hp
              obtain ⟨c, _, rfl⟩ := hp
              simp
            rw [hfil, ← hcr, List.map_map]
            rfl
          · intro g hgmem
            show (mid, g) ∈ genreFoldIgnore mid st.genres mv.genres
            exact genreFoldIgnore_mem mid mv.genres st.genres g (hgen ▸ hgmem)
          · show creditsFor (st.credits_pending.filter (fun p => p.1 != mid)) mid = []
            rw [creditsFor, List.filter_filter]
            have : ∀ p ∈ st.credits_pending, ¬ ((p.1 == mid) && (p.1 != mid)) = true := by
              intro p _
              simp
            rw [List.filter_eq_nil_iff.mpr this, List.map_nil]
          · show genresFor (st.genres_pending.filter (fun p => p.1 != mid)) mid = []
            rw [genresFor, List.filter_filter]
            have : ∀ p ∈ st.genres_pending, ¬ ((p.1 == mid) && (p.1 != mid)) = true := by
              intro p _
              simp
            rw [List.filter_eq_nil_iff.mpr this, List.map_nil]

/-! ### C5, amended statement -/

/-- C5 amended: when the two stores are disjoint (the intended
invariant) and the export is non-empty, the computed coverage is exactly
100% if and only if the missing list is empty — the extra list plays no
role, since every extra id is subtracted back out of the combined count. -/
theorem coverage_hundred_iff_missing_empty
    (lines : List (Option RawExportLine)) (st : DBState)
    (hdisj : prodIds st ∩ pendingIds st = ∅)
    (hE : (exportAllMovieIds lines).card ≠ 0) :
    (verify_against_export lines st true).coverage_percent = 100
      ↔ (verify_against_export lines st true).missing_ids = ∅ := by
  have hr : verify_against_export lines st true =
      { export_count := (exportAllMovieIds lines).card
        database_count := (prodIds st).card
        pending_count := (pendingIds st).card
        missing_ids := exportAllMovieIds lines \ (prodIds st ∪ pendingIds st)
        extra_ids := (prodIds st ∪ pendingIds st) \ exportAllMovieIds lines } := rfl
  rw [hr]
  set E := exportAllMovieIds lines with hEdef
  set P := prodIds st
  set S := pendingIds st
  set D := P ∪ S with hDdef
  have hPS : P.card + S.card = D.card := by
    have := Finset.card_union_add_card_inter P S
    rw [hdisj] at this
    simpa using this.symm
  have hDE : (D ∩ E).card + (D \ E).card = D.card :=
    Finset.card_inter_add_card_sdiff D E
  rw [VerificationResult.coverage_percent]
  simp only [VerificationResult.total_in_db, VerificationResult.extra_count]
  rw [if_neg hE]
  have hnum : ((P.card + S.card : Nat) : ℚ) - ((D \ E).card : ℚ) = ((D ∩ E).card : ℚ) := by
    rw [hPS]
    have : ((D.card : ℚ)) = ((D ∩ E).card : ℚ) + ((D \ E).card : ℚ) := by
      exact_mod_cast hDE.symm
    rw [this]
    ring
  push_cast
  push_cast at hnum
  rw [hnum]
  have hE' : ((E.card : ℚ)) ≠ 0 := by exact_mod_cast hE
  constructor
  · intro hcov
    have hdiv : ((D ∩ E).card : ℚ) / (E.card : ℚ) = 1 := by
      have h100 : ((D ∩ E).card : ℚ) / (E.card : ℚ) * 100 = 1 * 100 := by
        rw [hcov]; ring
      have := mul_right_cancel₀ (by norm_num : (100 : ℚ) ≠ 0) h100
      simpa using this
    have hcards : (D ∩ E).card = E.card := by
      exact_mod_cast (div_eq_one_iff_eq hE').mp hdiv
    have hinter : D ∩ E = E :=
      Finset.eq_of_subset_of_card_le Finset.inter_subset_right (le_of_eq hcards.symm)
    have hsub : E ⊆ D := Finset.inter_eq_right.mp hinter
    exact Finset.sdiff_eq_empty_iff_subset.mpr hsub
  · intro hmiss
    have hsub : E ⊆ D := Finset.sdiff_eq_empty_iff_subset.mp hmiss
    have hinter : D ∩ E = E := Finset.inter_eq_right.mpr hsub
    rw [hinter, div_self hE']
    norm_num

/-- Witness for the amended C5 on the spec's verification scenario
(disjoint stores, non-empty export, empty missing list): coverage is
100% after deleting id 4's line from the export (here: export {1,2,3},
production {1,2}, staged {3}). -/
theorem coverage_hundred_iff_missing_empty_witness :
    (verify_against_export (scenarioExportLines.take 3) scenarioVerifyState true).coverage_percent = 100 := by
  have h := coverage_hundred_iff_missing_empty (scenarioExportLines.take 3)
    scenarioVerifyState (by decide) (by decide)
  exact h.mpr (by decide)

end TMDB
